import Mathlib

/-!
Verification of the two command-line clients in `scripts/prompt_llm.py` and
`scripts/test_llm_api.py`: the payload builders `prompt_completion` and
`prompt_chat`, the renderer `print_response`, the `main` entry point of the
prompt tool (argument validation, stream downgrade, JSON timing injection),
and the test harness `main` of `test_llm_api.py`.

Modelling conventions: Python floats become rationals (all comparisons the
scripts perform on them are exact equality/ordering against literals), JSON
values become the inductive `JVal`, Python dicts become insertion-ordered
association lists `List (String × JVal)`, `None` becomes `Option.none`, and
Python truthiness of the optional arguments is spelled out per type.
-/

/-- A JSON value, as assembled by the scripts. -/
inductive JVal where
  | str (s : String)
  | int (n : Int)
  | rat (q : ℚ)
  | bool (b : Bool)
  | arr (xs : List JVal)
  | obj (fields : List (String × JVal))
  | null

/-- Python truthiness of an `Optional[str]` value: `None` and `""` are falsy. -/
def strOptTruthy : Option String → Bool
  | none => false
  | some s => !s.isEmpty

/-- Python truthiness of an `Optional[List[str]]` value: `None` and `[]` are falsy. -/
def listOptTruthy : Option (List String) → Bool
  | none => false
  | some l => !l.isEmpty

/-- Python truthiness of an `Optional[int]` value: `None` and `0` are falsy. -/
def intOptTruthy : Option Int → Bool
  | none => false
  | some n => n != 0

/-- The parameters of `prompt_completion` (prompt_llm.py lines 50-69), with the
defaults declared there. -/
structure CompletionConfig where
  model_name : String
  prompt : String
  max_tokens : Int := 512
  temperature : ℚ := 7/10
  top_p : ℚ := 1
  top_k : Int := -1
  frequency_penalty : ℚ := 0
  presence_penalty : ℚ := 0
  repetition_penalty : ℚ := 1
  stop : Option (List String) := none
  stream : Bool := false
  n : Int := 1
  best_of : Option Int := none
  logprobs : Option Int := none
  echo : Bool := false
  min_tokens : Int := 0
  use_beam_search : Bool := false
  length_penalty : ℚ := 1

/-- The request payload assembled by `prompt_completion` (prompt_llm.py lines
100-128): ten unconditional fields in dict insertion order, then each optional
field appended under exactly the condition the code tests. -/
def prompt_completion_payload (c : CompletionConfig) : List (String × JVal) :=
  [("model", .str c.model_name),
   ("prompt", .str c.prompt),
   ("max_tokens", .int c.max_tokens),
   ("temperature", .rat c.temperature),
   ("top_p", .rat c.top_p),
   ("frequency_penalty", .rat c.frequency_penalty),
   ("presence_penalty", .rat c.presence_penalty),
   ("stream", .bool c.stream),
   ("n", .int c.n),
   ("echo", .bool c.echo)]
  ++ (if c.top_k > 0 then [("top_k", .int c.top_k)] else [])
  ++ (if c.repetition_penalty ≠ 1 then [("repetition_penalty", .rat c.repetition_penalty)] else [])
  ++ (if listOptTruthy c.stop then [("stop", .arr ((c.stop.getD []).map .str))] else [])
  ++ (if intOptTruthy c.best_of then [("best_of", .int (c.best_of.getD 0))] else [])
  ++ (if intOptTruthy c.logprobs then [("logprobs", .int (c.logprobs.getD 0))] else [])
  ++ (if c.min_tokens > 0 then [("min_tokens", .int c.min_tokens)] else [])
  ++ (if c.use_beam_search then
        [("use_beam_search", .bool c.use_beam_search),
         ("length_penalty", .rat c.length_penalty)]
      else [])

/-- The parameters of `prompt_chat` (prompt_llm.py lines 146-161), with the
defaults declared there. -/
structure ChatConfig where
  model_name : String
  system_message : Option String := none
  user_message : String
  max_tokens : Int := 512
  temperature : ℚ := 7/10
  top_p : ℚ := 1
  top_k : Int := -1
  frequency_penalty : ℚ := 0
  presence_penalty : ℚ := 0
  repetition_penalty : ℚ := 1
  stop : Option (List String) := none
  stream : Bool := false
  n : Int := 1
  logprobs : Option Int := none

/-- The message list assembled by `prompt_chat` (prompt_llm.py lines 170-173):
an optional system entry when the system message is truthy, then the user entry. -/
def prompt_chat_messages (c : ChatConfig) : List JVal :=
  (if strOptTruthy c.system_message then
     [.obj [("role", .str "system"), ("content", .str (c.system_message.getD ""))]]
   else [])
  ++ [.obj [("role", .str "user"), ("content", .str c.user_message)]]

/-- The request payload assembled by `prompt_chat` (prompt_llm.py lines
175-195): nine unconditional fields, then each optional field appended under
exactly the condition the code tests. -/
def prompt_chat_payload (c : ChatConfig) : List (String × JVal) :=
  [("model", .str c.model_name),
   ("messages", .arr (prompt_chat_messages c)),
   ("max_tokens", .int c.max_tokens),
   ("temperature", .rat c.temperature),
   ("top_p", .rat c.top_p),
   ("frequency_penalty", .rat c.frequency_penalty),
   ("presence_penalty", .rat c.presence_penalty),
   ("stream", .bool c.stream),
   ("n", .int c.n)]
  ++ (if c.top_k > 0 then [("top_k", .int c.top_k)] else [])
  ++ (if c.repetition_penalty ≠ 1 then [("repetition_penalty", .rat c.repetition_penalty)] else [])
  ++ (if listOptTruthy c.stop then [("stop", .arr ((c.stop.getD []).map .str))] else [])
  ++ (if intOptTruthy c.logprobs then [("logprobs", .int (c.logprobs.getD 0))] else [])

/-- The keys of a payload, in insertion order. -/
def payloadKeys (p : List (String × JVal)) : List String := p.map Prod.fst

/-- Dict lookup on an association-list payload. -/
def lookupKey (k : String) (p : List (String × JVal)) : Option JVal :=
  (p.find? (fun e => e.fst == k)).map Prod.snd

example :
    payloadKeys (prompt_completion_payload { model_name := "m", prompt := "p" }) =
      ["model", "prompt", "max_tokens", "temperature", "top_p",
       "frequency_penalty", "presence_penalty", "stream", "n", "echo"] := by
  decide

example :
    payloadKeys (prompt_completion_payload
      { model_name := "m", prompt := "p", use_beam_search := true }) =
      ["model", "prompt", "max_tokens", "temperature", "top_p",
       "frequency_penalty", "presence_penalty", "stream", "n", "echo",
       "use_beam_search", "length_penalty"] := by
  decide

theorem mem_ite_list {α} (a : α) (P : Prop) [Decidable P] (l : List α) :
    a ∈ (if P then l else []) ↔ P ∧ a ∈ l := by
  split_ifs with h <;> simp [h]

theorem completion_keys_spec (c : CompletionConfig) :
    payloadKeys (prompt_completion_payload c) =
      ["model", "prompt", "max_tokens", "temperature", "top_p",
       "frequency_penalty", "presence_penalty", "stream", "n", "echo"]
      ++ (if c.top_k > 0 then ["top_k"] else [])
      ++ (if c.repetition_penalty ≠ 1 then ["repetition_penalty"] else [])
      ++ (if listOptTruthy c.stop then ["stop"] else [])
      ++ (if intOptTruthy c.best_of then ["best_of"] else [])
      ++ (if intOptTruthy c.logprobs then ["logprobs"] else [])
      ++ (if c.min_tokens > 0 then ["min_tokens"] else [])
      ++ (if c.use_beam_search then ["use_beam_search", "length_penalty"] else []) := by
  simp [payloadKeys, prompt_completion_payload, apply_ite (List.map Prod.fst)]

theorem chat_keys_spec (c : ChatConfig) :
    payloadKeys (prompt_chat_payload c) =
      ["model", "messages", "max_tokens", "temperature", "top_p",
       "frequency_penalty", "presence_penalty", "stream", "n"]
      ++ (if c.top_k > 0 then ["top_k"] else [])
      ++ (if c.repetition_penalty ≠ 1 then ["repetition_penalty"] else [])
      ++ (if listOptTruthy c.stop then ["stop"] else [])
      ++ (if intOptTruthy c.logprobs then ["logprobs"] else []) := by
  simp [payloadKeys, prompt_chat_payload, apply_ite (List.map Prod.fst)]

example (c : CompletionConfig) :
    "top_k" ∈ payloadKeys (prompt_completion_payload c) ↔ c.top_k > 0 := by
  simp [completion_keys_spec, mem_ite_list]

theorem mem_completion_top_k (c : CompletionConfig) :
    "top_k" ∈ payloadKeys (prompt_completion_payload c) ↔ c.top_k > 0 := by
  simp [completion_keys_spec, mem_ite_list]

theorem mem_completion_repetition_penalty (c : CompletionConfig) :
    "repetition_penalty" ∈ payloadKeys (prompt_completion_payload c) ↔
      c.repetition_penalty ≠ 1 := by
  simp [completion_keys_spec, mem_ite_list]

theorem mem_completion_stop (c : CompletionConfig) :
    "stop" ∈ payloadKeys (prompt_completion_payload c) ↔ listOptTruthy c.stop = true := by
  simp [completion_keys_spec, mem_ite_list]

theorem mem_completion_best_of (c : CompletionConfig) :
    "best_of" ∈ payloadKeys (prompt_completion_payload c) ↔ intOptTruthy c.best_of = true := by
  simp [completion_keys_spec, mem_ite_list]

theorem mem_completion_logprobs (c : CompletionConfig) :
    "logprobs" ∈ payloadKeys (prompt_completion_payload c) ↔ intOptTruthy c.logprobs = true := by
  simp [completion_keys_spec, mem_ite_list]

theorem mem_completion_min_tokens (c : CompletionConfig) :
    "min_tokens" ∈ payloadKeys (prompt_completion_payload c) ↔ c.min_tokens > 0 := by
  simp [completion_keys_spec, mem_ite_list]

theorem mem_completion_use_beam_search (c : CompletionConfig) :
    "use_beam_search" ∈ payloadKeys (prompt_completion_payload c) ↔
      c.use_beam_search = true := by
  simp [completion_keys_spec, mem_ite_list]

theorem mem_completion_length_penalty (c : CompletionConfig) :
    "length_penalty" ∈ payloadKeys (prompt_completion_payload c) ↔
      c.use_beam_search = true := by
  simp [completion_keys_spec, mem_ite_list]

theorem mem_chat_top_k (c : ChatConfig) :
    "top_k" ∈ payloadKeys (prompt_chat_payload c) ↔ c.top_k > 0 := by
  simp [chat_keys_spec, mem_ite_list]

theorem mem_chat_best_of (c : ChatConfig) :
    "best_of" ∉ payloadKeys (prompt_chat_payload c) := by
  simp [chat_keys_spec, mem_ite_list]

theorem mem_chat_logprobs (c : ChatConfig) :
    "logprobs" ∈ payloadKeys (prompt_chat_payload c) ↔ intOptTruthy c.logprobs = true := by
  simp [chat_keys_spec, mem_ite_list]

/-- A completion config with every optional parameter at its default. -/
def exampleCompletion : CompletionConfig := { model_name := "m", prompt := "p" }

/-- A chat config with every optional parameter at its default. -/
def exampleChat : ChatConfig := { model_name := "m", user_message := "u" }

/-- A completion config with beam search enabled and length penalty at its
default 1.0. -/
def beamDefaultPenalty : CompletionConfig :=
  { model_name := "m", prompt := "p", use_beam_search := true, length_penalty := 1 }

/-- C1 counterexample: with beam search enabled and `length_penalty` at its
documented default 1.0, `prompt_completion` still puts `length_penalty` in the
payload, so the key is not omitted "regardless of the other parameters". -/
theorem c1_length_penalty_included_at_default :
    beamDefaultPenalty.length_penalty = 1 ∧
    "length_penalty" ∈ payloadKeys (prompt_completion_payload beamDefaultPenalty) := by
  exact ⟨rfl, by decide⟩

/-- C1 (amended): `prompt_completion` omits `top_k`, `repetition_penalty`,
`stop`, `best_of`, `logprobs`, `min_tokens`, and `use_beam_search` whenever
each is at its documented default/sentinel value; `length_penalty`, however,
is in the payload exactly when `use_beam_search` is true, even when it equals
its default 1.0 (and omitted, whatever its value, when beam search is off). -/
theorem c1_completion_omits_defaults (c : CompletionConfig) :
    (c.top_k = -1 → "top_k" ∉ payloadKeys (prompt_completion_payload c)) ∧
    (c.repetition_penalty = 1 →
      "repetition_penalty" ∉ payloadKeys (prompt_completion_payload c)) ∧
    (c.stop = none ∨ c.stop = some [] →
      "stop" ∉ payloadKeys (prompt_completion_payload c)) ∧
    (c.best_of = none → "best_of" ∉ payloadKeys (prompt_completion_payload c)) ∧
    (c.logprobs = none → "logprobs" ∉ payloadKeys (prompt_completion_payload c)) ∧
    (c.min_tokens = 0 → "min_tokens" ∉ payloadKeys (prompt_completion_payload c)) ∧
    (c.use_beam_search = false →
      "use_beam_search" ∉ payloadKeys (prompt_completion_payload c)) ∧
    ("length_penalty" ∈ payloadKeys (prompt_completion_payload c) ↔
      c.use_beam_search = true) := by
  refine ⟨fun h => ?_, fun h => ?_, fun h => ?_, fun h => ?_, fun h => ?_, fun h => ?_,
    fun h => ?_, mem_completion_length_penalty c⟩
  · rw [mem_completion_top_k]; omega
  · rw [mem_completion_repetition_penalty]; simp [h]
  · rw [mem_completion_stop]; rcases h with h | h <;> simp [listOptTruthy, h]
  · rw [mem_completion_best_of]; simp [intOptTruthy, h]
  · rw [mem_completion_logprobs]; simp [intOptTruthy, h]
  · rw [mem_completion_min_tokens]; omega
  · rw [mem_completion_use_beam_search]; simp [h]

/-- C1 witness: at the all-default config, each of the seven optional keys is
absent from the completion payload. -/
theorem c1_completion_omits_defaults_witness :
    "top_k" ∉ payloadKeys (prompt_completion_payload exampleCompletion) ∧
    "repetition_penalty" ∉ payloadKeys (prompt_completion_payload exampleCompletion) ∧
    "stop" ∉ payloadKeys (prompt_completion_payload exampleCompletion) ∧
    "best_of" ∉ payloadKeys (prompt_completion_payload exampleCompletion) ∧
    "logprobs" ∉ payloadKeys (prompt_completion_payload exampleCompletion) ∧
    "min_tokens" ∉ payloadKeys (prompt_completion_payload exampleCompletion) ∧
    "use_beam_search" ∉ payloadKeys (prompt_completion_payload exampleCompletion) := by
  have h := c1_completion_omits_defaults exampleCompletion
  exact ⟨h.1 rfl, h.2.1 rfl, h.2.2.1 (Or.inl rfl), h.2.2.2.1 rfl, h.2.2.2.2.1 rfl,
    h.2.2.2.2.2.1 rfl, h.2.2.2.2.2.2.1 rfl⟩

/-- C2 counterexample: `prompt_chat` with `logprobs = 5` puts a `logprobs` key
in the chat payload, so log-probability count is not completion-mode only. -/
theorem c2_chat_logprobs_included :
    "logprobs" ∈ payloadKeys (prompt_chat_payload
      { model_name := "m", user_message := "u", logprobs := some 5 }) := by
  decide

/-- C2 (amended): `prompt_chat` never puts a `best_of` key in the payload, but
it does include `logprobs` exactly when the logprobs argument is truthy. -/
theorem c2_chat_no_best_of (c : ChatConfig) :
    "best_of" ∉ payloadKeys (prompt_chat_payload c) ∧
    ("logprobs" ∈ payloadKeys (prompt_chat_payload c) ↔
      intOptTruthy c.logprobs = true) :=
  ⟨mem_chat_best_of c, mem_chat_logprobs c⟩

/-- C2 witness: at the all-default chat config, `best_of` is absent and the
logprobs characterization holds. -/
theorem c2_chat_no_best_of_witness :
    "best_of" ∉ payloadKeys (prompt_chat_payload exampleChat) ∧
    ("logprobs" ∈ payloadKeys (prompt_chat_payload exampleChat) ↔
      intOptTruthy exampleChat.logprobs = true) :=
  c2_chat_no_best_of exampleChat

/-- C9: both builders include `top_k` exactly when it is positive; in
particular the non-sentinel value 0 is silently omitted. -/
theorem c9_top_k_iff_positive (c : CompletionConfig) (c2 : ChatConfig) :
    ("top_k" ∈ payloadKeys (prompt_completion_payload c) ↔ c.top_k > 0) ∧
    ("top_k" ∈ payloadKeys (prompt_chat_payload c2) ↔ c2.top_k > 0) :=
  ⟨mem_completion_top_k c, mem_chat_top_k c2⟩

/-- A completion config with `top_k = 0`. -/
def zeroTopKCompletion : CompletionConfig := { model_name := "m", prompt := "p", top_k := 0 }

/-- A chat config with `top_k = 0`. -/
def zeroTopKChat : ChatConfig := { model_name := "m", user_message := "u", top_k := 0 }

/-- C9 witness: at `top_k = 0` both payloads omit the `top_k` key. -/
theorem c9_top_k_iff_positive_witness :
    "top_k" ∉ payloadKeys (prompt_completion_payload zeroTopKCompletion) ∧
    "top_k" ∉ payloadKeys (prompt_chat_payload zeroTopKChat) := by
  have h := c9_top_k_iff_positive zeroTopKCompletion zeroTopKChat
  exact ⟨fun hm => absurd (h.1.mp hm) (by decide),
    fun hm => absurd (h.2.mp hm) (by decide)⟩

/-- C10: `prompt_completion` includes `best_of` and `logprobs` exactly when
the given value is truthy, and the payload with `best_of = 0, logprobs = 0` is
identical to the payload with both unset. -/
theorem c10_best_of_logprobs_truthiness (c : CompletionConfig) :
    ("best_of" ∈ payloadKeys (prompt_completion_payload c) ↔
      intOptTruthy c.best_of = true) ∧
    ("logprobs" ∈ payloadKeys (prompt_completion_payload c) ↔
      intOptTruthy c.logprobs = true) ∧
    prompt_completion_payload { c with best_of := some 0, logprobs := some 0 } =
      prompt_completion_payload { c with best_of := none, logprobs := none } := by
  refine ⟨mem_completion_best_of c, mem_completion_logprobs c, ?_⟩
  simp [prompt_completion_payload, intOptTruthy]

/-- A completion config with `best_of = 0` and `logprobs = 0`. -/
def zeroBestCompletion : CompletionConfig :=
  { model_name := "m", prompt := "p", best_of := some 0, logprobs := some 0 }

/-- C10 witness: at `best_of = 0, logprobs = 0` the explicitly-set falsy values
leave both keys out of the payload. -/
theorem c10_best_of_logprobs_truthiness_witness :
    "best_of" ∉ payloadKeys (prompt_completion_payload zeroBestCompletion) ∧
    "logprobs" ∉ payloadKeys (prompt_completion_payload zeroBestCompletion) := by
  have h := c10_best_of_logprobs_truthiness zeroBestCompletion
  exact ⟨fun hm => absurd (h.1.mp hm) (by decide),
    fun hm => absurd (h.2.1.mp hm) (by decide)⟩

/-- C7: the chat messages array is a system entry followed by exactly one user
entry when a non-empty system message is given, and exactly the one user entry
otherwise (system message absent or empty). -/
theorem c7_chat_messages_shape (c : ChatConfig) :
    (∀ s, c.system_message = some s → s ≠ "" →
      prompt_chat_messages c =
        [.obj [("role", .str "system"), ("content", .str s)],
         .obj [("role", .str "user"), ("content", .str c.user_message)]]) ∧
    (c.system_message = none ∨ c.system_message = some "" →
      prompt_chat_messages c =
        [.obj [("role", .str "user"), ("content", .str c.user_message)]]) := by
  constructor
  · intro s hs hne
    have hempty : s.isEmpty = false := by
      cases he : s.isEmpty
      · rfl
      · exact absurd ((String.isEmpty_iff s).mp he) hne
    simp [prompt_chat_messages, strOptTruthy, hs, hempty]
  · intro h
    rcases h with h | h <;> simp [prompt_chat_messages, strOptTruthy, h]
    rfl

/-- A chat config with a non-empty system message. -/
def sysChat : ChatConfig := { model_name := "m", user_message := "u", system_message := some "s" }

/-- C7 witness: with system message "s" the array is [system, user]; with no
system message it is just [user]. -/
theorem c7_chat_messages_shape_witness :
    prompt_chat_messages sysChat =
      [.obj [("role", .str "system"), ("content", .str "s")],
       .obj [("role", .str "user"), ("content", .str "u")]] ∧
    prompt_chat_messages exampleChat =
      [.obj [("role", .str "user"), ("content", .str "u")]] :=
  ⟨(c7_chat_messages_shape sysChat).1 "s" rfl (by decide),
   (c7_chat_messages_shape exampleChat).2 (Or.inl rfl)⟩

/-- Which of the four probes of `test_llm_api.py` would succeed against the
server under test. -/
structure ServerBehavior where
  healthOk : Bool
  modelsOk : Bool
  chatOk : Bool
  textOk : Bool

/-- The ordered TestResult list accumulated by `main` of test_llm_api.py
(lines 147-160): the Health probe only when `--skip-health` is absent, then
List Models, Chat Completion, Text Completion. -/
def harness_results (skipHealth : Bool) (s : ServerBehavior) : List (String × Bool) :=
  (if skipHealth then [] else [("Health", s.healthOk)])
  ++ [("List Models", s.modelsOk), ("Chat Completion", s.chatOk),
      ("Text Completion", s.textOk)]

/-- `passed = sum(1 for _, success in results if success)` (line 166). -/
def harness_passed (skipHealth : Bool) (s : ServerBehavior) : Nat :=
  ((harness_results skipHealth s).filter (fun r => r.snd)).length

/-- `total = len(results)` (line 167). -/
def harness_total (skipHealth : Bool) (s : ServerBehavior) : Nat :=
  (harness_results skipHealth s).length

/-- The summary line printed at line 173. -/
def harness_summary (skipHealth : Bool) (s : ServerBehavior) : String :=
  "Total: " ++ toString (harness_passed skipHealth s) ++ "/"
    ++ toString (harness_total skipHealth s) ++ " tests passed"

/-- `sys.exit(0 if passed == total else 1)` (line 176). -/
def harness_exit (skipHealth : Bool) (s : ServerBehavior) : Nat :=
  if harness_passed skipHealth s = harness_total skipHealth s then 0 else 1

/-- A server where the health probe fails and the other three probes succeed. -/
def healthFailServer : ServerBehavior :=
  { healthOk := false, modelsOk := true, chatOk := true, textOk := true }

/-- C3 counterexample: against a server where only `/health` fails, running
with `--skip-health` reports 3/3 and exits with code 0, not 1 as claimed. -/
theorem c3_skip_health_exit_zero :
    harness_summary true healthFailServer = "Total: 3/3 tests passed" ∧
    harness_exit true healthFailServer = 0 := by
  decide

/-- C3 (amended): against a server where `/health` fails and the models,
chat-completion and text-completion probes succeed, the harness reports 3/4
and exits with code 1; invoked with `--skip-health` it reports 3/3 and exits
with code 0. -/
theorem c3_harness_health_fail (s : ServerBehavior)
    (h1 : s.healthOk = false) (h2 : s.modelsOk = true)
    (h3 : s.chatOk = true) (h4 : s.textOk = true) :
    harness_summary false s = "Total: 3/4 tests passed" ∧
    harness_exit false s = 1 ∧
    harness_summary true s = "Total: 3/3 tests passed" ∧
    harness_exit true s = 0 := by
  cases s
  subst h1 h2 h3 h4
  decide

/-- C3 witness: the amended behavior evaluated at the concrete
health-failing server. -/
theorem c3_harness_health_fail_witness :
    harness_summary false healthFailServer = "Total: 3/4 tests passed" ∧
    harness_exit false healthFailServer = 1 ∧
    harness_summary true healthFailServer = "Total: 3/3 tests passed" ∧
    harness_exit true healthFailServer = 0 :=
  c3_harness_health_fail healthFailServer rfl rfl rfl rfl

/-- The `usage` object of a response, with each count optional as in a JSON
dict. -/
structure Usage where
  prompt_tokens : Option Int := none
  completion_tokens : Option Int := none
  total_tokens : Option Int := none

/-- One entry of the response's `choices` list; each field is optional since
the dict may lack it. `message_content` stands for `choice["message"]["content"]`. -/
structure Choice where
  text : Option String := none
  message_content : Option String := none
  finish_reason : Option String := none
  logprobs : Option JVal := none

/-- The server response as consumed by the scripts: a dict that may lack
`choices` and `usage`. -/
structure ResponseEnvelope where
  choices : Option (List Choice) := none
  usage : Option Usage := none

/-- `response.get("usage", {}).get("completion_tokens", 0)` (prompt_llm.py
lines 532-533). -/
def completion_tokens_or_zero (r : ResponseEnvelope) : Int :=
  match r.usage with
  | none => 0
  | some u => u.completion_tokens.getD 0

/-- Round to the nearest integer, ties to even, as Python's builtin `round`
does (the scripts' floats are modelled as rationals). -/
def roundHalfEven (q : ℚ) : ℤ :=
  if q - ⌊q⌋ < 1/2 then ⌊q⌋
  else if q - ⌊q⌋ > 1/2 then ⌊q⌋ + 1
  else if ⌊q⌋ % 2 = 0 then ⌊q⌋ else ⌊q⌋ + 1

/-- Python's `round(q, ndigits)`. -/
def pyRound (ndigits : Nat) (q : ℚ) : ℚ :=
  (roundHalfEven (10 ^ ndigits * q) : ℚ) / 10 ^ ndigits

/-- The value stored under `tokens_per_second` (prompt_llm.py lines 531-535):
the rounded ratio when elapsed time and completion-token count are positive,
JSON `null` otherwise. -/
def tokens_per_second_value (r : ResponseEnvelope) (elapsed : ℚ) : JVal :=
  if 0 < elapsed ∧ 0 < completion_tokens_or_zero r then
    .rat (pyRound 2 ((completion_tokens_or_zero r : ℚ) / elapsed))
  else .null

/-- The `_timing` object injected into the raw-JSON output (prompt_llm.py
lines 529-536). -/
def timing_object (r : ResponseEnvelope) (elapsed : ℚ) : List (String × JVal) :=
  [("request_latency_seconds", .rat (pyRound 3 elapsed)),
   ("tokens_per_second", tokens_per_second_value r elapsed)]

/-- C4: the injected `_timing` object always carries a `tokens_per_second`
key; its value is the ratio completion_tokens / elapsed rounded to 2 decimals
exactly when elapsed > 0 and completion_tokens > 0, and JSON null in every
other case — in particular whenever `usage` is missing. -/
theorem c4_tokens_per_second (r : ResponseEnvelope) (elapsed : ℚ) :
    "tokens_per_second" ∈ payloadKeys (timing_object r elapsed) ∧
    (0 < elapsed ∧ 0 < completion_tokens_or_zero r →
      lookupKey "tokens_per_second" (timing_object r elapsed) =
        some (.rat (pyRound 2 ((completion_tokens_or_zero r : ℚ) / elapsed)))) ∧
    (¬(0 < elapsed ∧ 0 < completion_tokens_or_zero r) →
      lookupKey "tokens_per_second" (timing_object r elapsed) = some .null) ∧
    (r.usage = none →
      lookupKey "tokens_per_second" (timing_object r elapsed) = some .null) := by
  have hl : lookupKey "tokens_per_second" (timing_object r elapsed) =
      some (tokens_per_second_value r elapsed) := rfl
  refine ⟨by simp [timing_object, payloadKeys], fun h => ?_, fun h => ?_, fun h => ?_⟩
  · rw [hl]; simp only [tokens_per_second_value]; rw [if_pos h]
  · rw [hl]; simp only [tokens_per_second_value]; rw [if_neg h]
  · rw [hl]; simp only [tokens_per_second_value]
    rw [if_neg]
    rintro ⟨-, hc⟩
    simp [completion_tokens_or_zero, h] at hc

/-- A response whose usage reports ten completion tokens. -/
def usageTenResponse : ResponseEnvelope :=
  { usage := some { completion_tokens := some 10 } }

/-- C4 witness: ten completion tokens in two seconds give 5.0 tokens per
second; at elapsed 0, or with usage missing, the field is null. -/
theorem c4_tokens_per_second_witness :
    lookupKey "tokens_per_second" (timing_object usageTenResponse 2) =
      some (.rat (pyRound 2 ((completion_tokens_or_zero usageTenResponse : ℚ) / 2))) ∧
    pyRound 2 ((completion_tokens_or_zero usageTenResponse : ℚ) / 2) = 5 ∧
    lookupKey "tokens_per_second" (timing_object usageTenResponse 0) = some .null ∧
    lookupKey "tokens_per_second" (timing_object {} 2) = some .null := by
  refine ⟨(c4_tokens_per_second usageTenResponse 2).2.1 ⟨by norm_num, by decide⟩,
    ?_, (c4_tokens_per_second usageTenResponse 0).2.2.1 ?_,
    (c4_tokens_per_second {} 2).2.2.2 rfl⟩
  · norm_num [completion_tokens_or_zero, usageTenResponse, pyRound, roundHalfEven]
  · rintro ⟨hlt, -⟩
    exact absurd hlt (by norm_num)

/-- The two values argparse accepts for `--mode` (prompt_llm.py line 312). -/
inductive Mode where
  | completion
  | chat
deriving DecidableEq

/-- The parsed command-line arguments of prompt_llm.py (lines 297-435), with
the argparse defaults. Flags without a default parse to `none`. -/
structure Args where
  url : String := "http://localhost:8000"
  model : String := "meta-llama/Meta-Llama-3.1-8B-Instruct"
  mode : Mode := .completion
  prompt : Option String := none
  system : Option String := none
  user_message : Option String := none
  max_tokens : Int := 512
  min_tokens : Int := 0
  temperature : ℚ := 7/10
  top_p : ℚ := 1
  top_k : Int := -1
  frequency_penalty : ℚ := 0
  presence_penalty : ℚ := 0
  repetition_penalty : ℚ := 1
  stop : Option (List String) := none
  n : Int := 1
  best_of : Option Int := none
  use_beam_search : Bool := false
  length_penalty : ℚ := 1
  echo : Bool := false
  logprobs : Option Int := none
  stream : Bool := false
  show_metadata : Bool := false
  json : Bool := false

/-- The stream value actually passed to the request builders: `main` resets
`args.stream` to False after warning (prompt_llm.py lines 443-445). -/
def effective_stream (a : Args) : Bool :=
  if a.stream then false else a.stream

/-- The warning printed when `--stream` was given (prompt_llm.py line 444). -/
def streamWarning : String := "⚠️  Warning: Streaming is not implemented in this script"

/-- The warnings `main` prints before building any request, in the non-error
path (prompt_llm.py lines 443-445). -/
def main_warnings (a : Args) : List String :=
  if a.stream then [streamWarning] else []

/-- The completion config `main` passes to `prompt_completion`
(prompt_llm.py lines 503-523). -/
def completionConfigOfArgs (a : Args) : CompletionConfig :=
  { model_name := a.model, prompt := a.prompt.getD "",
    max_tokens := a.max_tokens, temperature := a.temperature,
    top_p := a.top_p, top_k := a.top_k,
    frequency_penalty := a.frequency_penalty,
    presence_penalty := a.presence_penalty,
    repetition_penalty := a.repetition_penalty,
    stop := a.stop, stream := effective_stream a, n := a.n,
    best_of := a.best_of, logprobs := a.logprobs, echo := a.echo,
    min_tokens := a.min_tokens, use_beam_search := a.use_beam_search,
    length_penalty := a.length_penalty }

/-- The chat config `main` passes to `prompt_chat` (prompt_llm.py lines
480-496). -/
def chatConfigOfArgs (a : Args) : ChatConfig :=
  { model_name := a.model, system_message := a.system,
    user_message := a.user_message.getD "",
    max_tokens := a.max_tokens, temperature := a.temperature,
    top_p := a.top_p, top_k := a.top_k,
    frequency_penalty := a.frequency_penalty,
    presence_penalty := a.presence_penalty,
    repetition_penalty := a.repetition_penalty,
    stop := a.stop, stream := effective_stream a, n := a.n,
    logprobs := a.logprobs }

/-- What `main` does up to the single HTTP request: a usage error (argparse
`parser.error`, which exits with a non-zero code before any network call), or
the POST endpoint and payload it issues. -/
inductive MainOutcome where
  | usageError (message : String)
  | request (endpoint : String) (payload : List (String × JVal))

/-- The outcome of `main` of prompt_llm.py: validation first (lines 438-441),
then dispatch on mode to a single request (lines 472-523). -/
def main_request (a : Args) : MainOutcome :=
  if a.mode = .completion ∧ strOptTruthy a.prompt = false then
    .usageError "--prompt is required for completion mode"
  else if a.mode = .chat ∧ strOptTruthy a.user_message = false then
    .usageError "--user-message is required for chat mode"
  else
    match a.mode with
    | .chat => .request "/v1/chat/completions" (prompt_chat_payload (chatConfigOfArgs a))
    | .completion => .request "/v1/completions" (prompt_completion_payload (completionConfigOfArgs a))

/-- C5: completion mode without a prompt, or chat mode without a user
message, produces a usage error (argparse exits non-zero) and never reaches
the request-issuing branch. -/
theorem c5_missing_argument_usage_error (a : Args) :
    (a.mode = .completion → a.prompt = none →
      main_request a = .usageError "--prompt is required for completion mode") ∧
    (a.mode = .chat → a.user_message = none →
      main_request a = .usageError "--user-message is required for chat mode") := by
  constructor
  · intro hm hp
    simp [main_request, hm, hp, strOptTruthy]
  · intro hm hp
    simp [main_request, hm, hp, strOptTruthy]

/-- C5 witness: at the default arguments (completion mode, no prompt) and at
chat mode with no user message, `main` stops with the usage errors. -/
theorem c5_missing_argument_usage_error_witness :
    main_request {} = .usageError "--prompt is required for completion mode" ∧
    main_request { mode := .chat } =
      .usageError "--user-message is required for chat mode" :=
  ⟨(c5_missing_argument_usage_error {}).1 rfl rfl,
   (c5_missing_argument_usage_error { mode := .chat }).2 rfl rfl⟩

theorem lookup_stream_completion (c : CompletionConfig) :
    lookupKey "stream" (prompt_completion_payload c) = some (.bool c.stream) := rfl

theorem lookup_stream_chat (c : ChatConfig) :
    lookupKey "stream" (prompt_chat_payload c) = some (.bool c.stream) := rfl

theorem effective_stream_false (a : Args) : effective_stream a = false := by
  cases ha : a.stream <;> simp [effective_stream, ha]

/-- C8: every request `main` issues carries `stream = false`, and when
`--stream` was given the warning is printed before the request. -/
theorem c8_stream_always_false (a : Args) (ep : String) (p : List (String × JVal))
    (h : main_request a = .request ep p) :
    lookupKey "stream" p = some (.bool false) ∧
    (a.stream = true → streamWarning ∈ main_warnings a) := by
  refine ⟨?_, fun hs => by simp [main_warnings, hs]⟩
  simp only [main_request] at h
  by_cases h1 : a.mode = .completion ∧ strOptTruthy a.prompt = false
  · rw [if_pos h1] at h; exact absurd h (by simp)
  · rw [if_neg h1] at h
    by_cases h2 : a.mode = .chat ∧ strOptTruthy a.user_message = false
    · rw [if_pos h2] at h; exact absurd h (by simp)
    · rw [if_neg h2] at h
      cases hm : a.mode
      · rw [hm] at h
        simp only [MainOutcome.request.injEq] at h
        rw [← h.2, lookup_stream_completion]
        simp [completionConfigOfArgs, effective_stream_false]
      · rw [hm] at h
        simp only [MainOutcome.request.injEq] at h
        rw [← h.2, lookup_stream_chat]
        simp [chatConfigOfArgs, effective_stream_false]

/-- Arguments that request streaming in completion mode. -/
def streamArgs : Args := { prompt := some "p", stream := true }

/-- C8 witness: with `--stream` given, the issued completion request has
`stream = false` and the warning was printed. -/
theorem c8_stream_always_false_witness :
    lookupKey "stream"
      (prompt_completion_payload (completionConfigOfArgs streamArgs)) =
        some (.bool false) ∧
    streamWarning ∈ main_warnings streamArgs := by
  have h := c8_stream_always_false streamArgs "/v1/completions"
    (prompt_completion_payload (completionConfigOfArgs streamArgs)) (by rfl)
  exact ⟨h.1, h.2 rfl⟩

/-- Python truthiness of a JSON value, for `choice["logprobs"]` checks. -/
def jvalTruthy : JVal → Bool
  | .str s => !s.isEmpty
  | .int n => n != 0
  | .rat q => q != 0
  | .bool b => b
  | .arr xs => !xs.isEmpty
  | .obj fs => !fs.isEmpty
  | .null => false

/-- `'='*60`. -/
def sepEq : String := String.mk (List.replicate 60 '=')

/-- `'─'*60`. -/
def sepDash : String := String.mk (List.replicate 60 '─')

/-- `usage.get(key, 'N/A')` rendered for printing. -/
def optIntDisplay (o : Option Int) : String := (o.map toString).getD "N/A"

/-- The per-choice metadata lines of `print_response` (prompt_llm.py lines
227-231 and 244-248). -/
def choice_meta_lines (c : Choice) : List String :=
  ["", sepDash, "Finish reason: " ++ c.finish_reason.getD "N/A"]
  ++ (match c.logprobs with
      | some v => if jvalTruthy v then ["Logprobs available: Yes"] else []
      | none => [])

/-- One chat choice rendered by `print_response` (prompt_llm.py lines
219-231); reading `choice["message"]["content"]` raises when absent, which the
embedding reports as an `Except.error`. Numeric formatting of floats is
rendered via `pyRound` and `toString`. -/
def render_chat_choice (total i : Nat) (c : Choice) (show_metadata : Bool) :
    Except String (List String) :=
  match c.message_content with
  | none => .error "KeyError: message content"
  | some content =>
    .ok ((if total > 1 then ["", sepEq, "Completion " ++ toString (i + 1) ++ ":", sepEq]
          else [])
      ++ [content]
      ++ (if show_metadata then choice_meta_lines c else []))

/-- One completion choice rendered by `print_response` (prompt_llm.py lines
236-248); reading `choice["text"]` raises when absent. -/
def render_completion_choice (total i : Nat) (c : Choice) (show_metadata : Bool) :
    Except String (List String) :=
  match c.text with
  | none => .error "KeyError: text"
  | some text =>
    .ok ((if total > 1 then ["", sepEq, "Completion " ++ toString (i + 1) ++ ":", sepEq]
          else [])
      ++ [text]
      ++ (if show_metadata then choice_meta_lines c else []))

/-- The performance and usage statistics lines of `print_response`
(prompt_llm.py lines 252-268). -/
def perf_usage_lines (r : ResponseEnvelope) (elapsed : ℚ) : List String :=
  ["", sepDash, "Performance Metrics:",
   "  Request latency: " ++ toString (pyRound 3 elapsed) ++ "s"]
  ++ (match r.usage with
      | some u =>
        if (u.completion_tokens.getD 0) > 0 ∧ 0 < elapsed then
          ["  Tokens per second: "
            ++ toString (pyRound 2 ((u.completion_tokens.getD 0 : ℚ) / elapsed))]
        else []
      | none => [])
  ++ (match r.usage with
      | some u =>
        ["", sepDash, "Usage Statistics:",
         "  Prompt tokens: " ++ optIntDisplay u.prompt_tokens,
         "  Completion tokens: " ++ optIntDisplay u.completion_tokens,
         "  Total tokens: " ++ optIntDisplay u.total_tokens]
      | none => [])

/-- `print_response` (prompt_llm.py lines 213-268) as the list of lines it
prints, or an error when a dict access inside the choice loop raises. -/
def print_response (mode : Mode) (r : ResponseEnvelope) (elapsed : ℚ)
    (show_metadata : Bool) : Except String (List String) := do
  let body ←
    match mode with
    | .chat =>
      match r.choices with
      | some cs =>
        if 0 < cs.length then do
          let parts ← cs.enum.mapM
            (fun p => render_chat_choice cs.length p.1 p.2 show_metadata)
          pure parts.flatten
        else pure ["❌ No response generated"]
      | none => pure ["❌ No response generated"]
    | .completion =>
      match r.choices with
      | some cs =>
        if 0 < cs.length then do
          let parts ← cs.enum.mapM
            (fun p => render_completion_choice cs.length p.1 p.2 show_metadata)
          pure parts.flatten
        else pure ["❌ No response generated"]
      | none => pure ["❌ No response generated"]
  pure (body ++ (if show_metadata then perf_usage_lines r elapsed else []))

/-- C6: when the response's choices list is empty or the choices key is
absent, `print_response` returns normally (no raise) with the failure notice
as its first printed line, in both completion and chat mode. -/
theorem c6_no_choices_soft_failure (mode : Mode) (r : ResponseEnvelope)
    (elapsed : ℚ) (sm : Bool) (h : r.choices = none ∨ r.choices = some []) :
    print_response mode r elapsed sm =
      .ok ("❌ No response generated" ::
        (if sm then perf_usage_lines r elapsed else [])) := by
  rcases h with h | h <;> cases mode <;> simp [print_response, h] <;> rfl

/-- C6 witness: a response with no `choices` key in chat mode, and one with an
empty choices list in completion mode, both render the failure notice without
raising. -/
theorem c6_no_choices_soft_failure_witness :
    print_response .chat {} 0 false = .ok ["❌ No response generated"] ∧
    print_response .completion { choices := some [] } 0 false =
      .ok ["❌ No response generated"] :=
  ⟨c6_no_choices_soft_failure .chat {} 0 false (Or.inl rfl),
   c6_no_choices_soft_failure .completion { choices := some [] } 0 false (Or.inr rfl)⟩
